import Mathlib

/-!
Verification of src/test-server.py (a static-file HTTP server with a
permissive CORS header) against its specification.

The repository's own source is the top-level script: change into the
`dist` directory, print a filtered listing of its entries, bind a TCP
listener on port 8080 and serve forever with a handler class that
overrides `end_headers` to add `Access-Control-Allow-Origin: *`.
The static-file request handling itself lives in the Python standard
library (`http.server.SimpleHTTPRequestHandler`), which is not part of
this repository; those parts are modelled from the spec and marked so.
-/

namespace TestServer

/-- Bodies and file contents are byte lists. -/
abbrev Bytes := List Nat

/-- A node of the filesystem tree under the serving root. -/
inductive Node where
  | file (content : Bytes)
  | dir (entries : List (String × Node))

/-- The fixed port (src/test-server.py line 7: `PORT = 8080`). -/
def PORT : Nat := 8080

/-- The bind host (src/test-server.py line 25: `("", PORT)`), the empty
string meaning all network interfaces. -/
def bindHost : String := ""

/-- The header added by the handler override (src lines 13-15). -/
def corsHeader : String × String := ("Access-Control-Allow-Origin", "*")

/-- `MyHTTPRequestHandler.end_headers` (src lines 13-15): it sends the
CORS header and then calls the base `end_headers`, which emits all sent
headers.  So the finalized header list is the headers sent so far with
the CORS header appended. -/
def end_headers (sent : List (String × String)) : List (String × String) :=
  sent ++ [corsHeader]

/-- Character-level test that `p` is an initial segment of `cs`
(embedding of Python's `str.startswith`, src line 21). -/
def startsWithChars : List Char → List Char → Bool
  | [], _ => true
  | _ :: _, [] => false
  | p :: ps, c :: cs => p = c && startsWithChars ps cs

/-- Embedding of Python's `str.startswith` (src line 21), defined by
structural recursion over the character lists so it evaluates in the
kernel. -/
def strStartsWith (s pat : String) : Bool :=
  startsWithChars pat.data s.data

/-- Split a character list on a separator character. -/
def splitChars (sep : Char) : List Char → List (List Char)
  | [] => [[]]
  | c :: cs =>
    if c = sep then [] :: splitChars sep cs
    else
      match splitChars sep cs with
      | [] => [[c]]
      | w :: ws => (c :: w) :: ws

/-- Split a URL path on the slash separator. -/
def splitPath (p : String) : List String :=
  (splitChars '/' p.data).map (fun cs => String.mk cs)

/-- A path segment that survives resolution: non-empty and neither of
the special components `.` and `..`. -/
def goodSeg (s : String) : Prop :=
  s ≠ "" ∧ s ≠ "." ∧ s ≠ ".."

instance (s : String) : Decidable (goodSeg s) := by
  unfold goodSeg; infer_instance

/-- One step of path normalization: drop empty and `.` components, let
`..` pop the last component (never escaping past the root), and append
ordinary components. -/
def normStep (acc : List String) (s : String) : List String :=
  if s = "" ∨ s = "." then acc
  else if s = ".." then acc.dropLast
  else acc ++ [s]

/-- Normalize a segment list starting from an accumulator. -/
def normFrom (acc : List String) : List String → List String
  | [] => acc
  | s :: rest => normFrom (normStep acc s) rest

/-- Modelled from the spec: the path resolution of the stdlib
static-file handler (not part of this repository's source) — "Resolve
the requested path against the serving root, refusing to resolve
outside the root (standard path-traversal protection)".  Empty and `.`
components are dropped and `..` is clamped at the root. -/
def normSegs (segs : List String) : List String :=
  normFrom [] segs

/-- The location a request path resolves to: the serving root's own
path followed by the normalized request segments. -/
def resolvedLocation (root : List String) (p : String) : List String :=
  root ++ normSegs (splitPath p)

/-- Modelled from the spec: the "standard MIME mapping" the stdlib
static-file handler uses to infer `Content-Type` from a file extension
(the handler is not part of this repository's source). -/
def mimeTable : List (String × String) :=
  [("html", "text/html"), ("htm", "text/html"), ("txt", "text/plain"),
   ("css", "text/css"), ("js", "text/javascript"),
   ("json", "application/json"), ("png", "image/png"),
   ("gif", "image/gif"), ("jpg", "image/jpeg"),
   ("wasm", "application/wasm")]

/-- The extension of a file name: the part after the last dot, or the
empty string when the name has no dot. -/
def extensionOf (name : String) : String :=
  match (splitChars '.' name.data).reverse with
  | ext :: _ :: _ => String.mk ext
  | _ => ""

/-- Modelled from the spec: `Content-Type` inference by extension, with
the conventional fallback type for unknown extensions. -/
def guessType (name : String) : String :=
  match mimeTable.lookup (extensionOf name) with
  | some m => m
  | none => "application/octet-stream"

/-- The last segment of a resolved path (the requested file's name);
empty for the root itself. -/
def lastName (segs : List String) : String :=
  segs.getLastD ""

/-- Look up a name among a directory's entries. -/
def lookupEntry : List (String × Node) → String → Option Node
  | [], _ => none
  | (n, node) :: rest, s => if n = s then some node else lookupEntry rest s

/-- Walk the filesystem tree along a (normalized) segment list. -/
def lookupNode : Node → List String → Option Node
  | n, [] => some n
  | Node.dir es, s :: rest =>
    match lookupEntry es s with
    | some n => lookupNode n rest
    | none => none
  | Node.file _, _ :: _ => none

/-- An HTTP response: status code, finalized header list, body bytes. -/
structure Response where
  status : Nat
  headers : List (String × String)
  body : Bytes

/-- Byte encoding of an ASCII string: one byte per character, the
character's code point. -/
def encodeStr (s : String) : Bytes :=
  s.data.map Char.toNat

/-- The names of a directory's entries, in order. -/
def entryNames (es : List (String × Node)) : List String :=
  es.map Prod.fst

/-- An HTML link line for one directory entry. -/
def linkFor (name : String) : String :=
  "<li><a href=\"" ++ name ++ "\">" ++ name ++ "</a></li>"

/-- Modelled from the spec: the auto-generated HTML directory listing —
"names of entries, as links"; the exact format is declared not
load-bearing, so we fix one link line per entry between an HTML
prologue and epilogue. -/
def listingLines (names : List String) : List String :=
  ["<html><body><ul>"] ++ names.map linkFor ++ ["</ul></body></html>"]

/-- Join lines with newlines and encode them as bytes. -/
def renderLines (lines : List String) : Bytes :=
  encodeStr (String.intercalate "\n" lines)

/-- Modelled from the spec: the "generic not-found body" of the 404
response. -/
def notFoundBody : Bytes :=
  encodeStr "<html><body>404 Not Found</body></html>"

/-- Modelled from the spec: the per-request behavior of the stdlib
static-file handler (`SimpleHTTPRequestHandler`, not part of this
repository's source) on a resolved segment list — regular file: 200
with the file's bytes, `Content-Type` from the extension and
`Content-Length` the file size; directory: 200 with the HTML listing;
missing: 404 with the generic body.  Every branch finalizes its headers
through the subclass `end_headers` (src lines 13-15). -/
def handleSegs (root : Node) (segs : List String) : Response :=
  match lookupNode root segs with
  | some (Node.file content) =>
    { status := 200
      headers := end_headers
        [("Content-Type", guessType (lastName segs)),
         ("Content-Length", toString content.length)]
      body := content }
  | some (Node.dir es) =>
    let body := renderLines (listingLines (entryNames es))
    { status := 200
      headers := end_headers
        [("Content-Type", "text/html; charset=utf-8"),
         ("Content-Length", toString body.length)]
      body := body }
  | none =>
    { status := 404
      headers := end_headers
        [("Content-Type", "text/html; charset=utf-8"),
         ("Content-Length", toString notFoundBody.length)]
      body := notFoundBody }

/-- A GET request for a URL path: resolve the path (never leaving the
root), then dispatch on what it names. -/
def handleRequest (root : Node) (p : String) : Response :=
  handleSegs root (normSegs (splitPath p))

/-- The Python exceptions the script can die of: `FileNotFoundError`
from `os.chdir("dist")` (src line 10), `OSError` from the `TCPServer`
bind (src line 25), and `KeyboardInterrupt` from the interrupt signal
during `serve_forever` (src line 26). -/
inductive PyExc where
  | fileNotFoundError
  | osError
  | keyboardInterrupt
deriving DecidableEq

/-- The environment a run of the script sees: whether the `dist`
subdirectory of the launch directory exists, its entries when it does,
whether port 8080 is already bound by another process, and the request
paths that arrive before the interrupt signal. -/
structure Env where
  distExists : Bool
  rootEntries : List (String × Node)
  portInUse : Bool
  requests : List String

/-- The observable outcome of one run of the script. -/
structure ScriptResult where
  printed : List String
  stderr : List String
  listenerBound : Bool
  listenerClosed : Bool
  responses : List Response
  outcome : Except PyExc Unit

/-- The process exit status: 0 when the script runs off the end, and
non-zero otherwise — CPython prints a traceback on stderr and exits
with a non-zero status (1) on any unhandled exception. -/
def exitStatus (r : ScriptResult) : Nat :=
  match r.outcome with
  | Except.ok _ => 0
  | Except.error _ => 1

/-- The lines printed by the startup listing loop (src lines 20-22):
one decorated line per entry of the current directory whose name starts
with the literal `bcrdf-`. -/
def startupLines (names : List String) : List String :=
  (names.filter (fun f => strStartsWith f ("bcrdf-"))).map
    (fun f => "   - " ++ f)

/-- Embedding of the top level of src/test-server.py.  Line 10 runs
`os.chdir("dist")`: when `dist` does not exist this raises
`FileNotFoundError`, unhandled, so the process dies before any listener
is bound.  Lines 17-23 print the banner and the filtered listing.
Lines 25-26 construct `TCPServer(("", PORT), MyHTTPRequestHandler)`:
when the port is in use the constructor raises `OSError`, unhandled.
Otherwise `serve_forever` handles each accepted connection to
completion, one at a time, until the interrupt signal raises
`KeyboardInterrupt` inside the loop; the `with` statement then closes
the listener on the way out and the exception, having no handler,
terminates the process.  This model covers exactly the terminating
executions, every one of which ends in one of those three exceptions. -/
def scriptRun (env : Env) : ScriptResult :=
  if env.distExists = false then
    { printed := []
      stderr := ["FileNotFoundError: [Errno 2] No such file or directory: 'dist'"]
      listenerBound := false
      listenerClosed := false
      responses := []
      outcome := Except.error PyExc.fileNotFoundError }
  else
    let printed :=
      ["🚀 Test server starting on http://localhost:" ++ toString PORT,
       "📁 Serving files from: dist",
       "📋 Available files:"]
      ++ startupLines (entryNames env.rootEntries)
      ++ ["✅ Server ready! Press Ctrl+C to stop"]
    if env.portInUse then
      { printed := printed
        stderr := ["OSError: [Errno 98] Address already in use"]
        listenerBound := false
        listenerClosed := false
        responses := []
        outcome := Except.error PyExc.osError }
    else
      { printed := printed
        stderr := ["KeyboardInterrupt"]
        listenerBound := true
        listenerClosed := true
        responses := env.requests.map (handleRequest (Node.dir env.rootEntries))
        outcome := Except.error PyExc.keyboardInterrupt }

/-- Two instances of the script started on the same port: the first
binds (the port is free for it), and the second finds the port in use
exactly when the first one's listener got bound. -/
def runTwo (env1 env2 : Env) : ScriptResult × ScriptResult :=
  let r1 := scriptRun { env1 with portInUse := false }
  let r2 := scriptRun { env2 with portInUse := r1.listenerBound }
  (r1, r2)

/-- A sample serving root used by the concrete witnesses: the spec's
scenario of a `dist` directory holding `bcrdf-v1.bin` and `notes.txt`,
plus a subdirectory. -/
def fs0 : Node :=
  Node.dir
    [("bcrdf-v1.bin", Node.file [1, 2, 3]),
     ("notes.txt", Node.file [110, 111]),
     ("sub", Node.dir [("a.txt", Node.file [9])])]

/-- Helper: one normalization step preserves well-formedness of the
accumulated segments. -/
theorem goodSeg_of_mem_normStep (acc : List String) (s : String)
    (hacc : ∀ t ∈ acc, goodSeg t) : ∀ t ∈ normStep acc s, goodSeg t := by
  intro t ht
  unfold normStep at ht
  by_cases h1 : s = "" ∨ s = "."
  · rw [if_pos h1] at ht
    exact hacc t ht
  · rw [if_neg h1] at ht
    by_cases h2 : s = ".."
    · rw [if_pos h2] at ht
      exact hacc t (List.dropLast_subset _ ht)
    · rw [if_neg h2] at ht
      rcases List.mem_append.mp ht with h | h
      · exact hacc t h
      · rcases List.mem_singleton.mp h with rfl
        push_neg at h1
        exact ⟨h1.1, h1.2, h2⟩

/-- Helper: every segment surviving normalization is well formed. -/
theorem goodSeg_of_mem_normFrom (segs : List String) :
    ∀ acc : List String, (∀ t ∈ acc, goodSeg t) →
      ∀ t ∈ normFrom acc segs, goodSeg t := by
  induction segs with
  | nil => intro acc hacc t ht; exact hacc t ht
  | cons s rest ih =>
    intro acc hacc t ht
    exact ih (normStep acc s) (goodSeg_of_mem_normStep acc s hacc) t ht

/-- Claim C1: every response the handler produces — file success,
directory listing, and the 404 error — carries the header
`Access-Control-Allow-Origin: *`, because every branch finalizes its
headers through the overridden `end_headers`. -/
theorem c1_cors_on_every_response (root : Node) (p : String) :
    corsHeader ∈ (handleRequest root p).headers := by
  unfold handleRequest handleSegs
  cases lookupNode root (normSegs (splitPath p)) with
  | none => simp [end_headers]
  | some n =>
    cases n with
    | file content => simp [end_headers]
    | dir es => simp [end_headers]

/-- Claim C9: for every request path, the resolved location starts with
the serving root's own path, and no empty, `.` or `..` component
survives resolution — the request can never name a location outside the
root. -/
theorem c9_no_path_traversal (root : List String) (p : String) :
    root <+: resolvedLocation root p ∧
      ∀ s ∈ normSegs (splitPath p), goodSeg s := by
  refine ⟨List.prefix_append root (normSegs (splitPath p)), ?_⟩
  exact goodSeg_of_mem_normFrom (splitPath p) [] (by intro t ht; cases ht)

/-- Claim C4: when a request path resolves to a regular file, the
response has status 200, a body byte-identical to the file's contents,
a `Content-Length` header equal to the file size, and a `Content-Type`
inferred from the file extension by the MIME mapping. -/
theorem c4_file_get_ok (root : Node) (p : String) (content : Bytes)
    (h : lookupNode root (normSegs (splitPath p)) = some (Node.file content)) :
    (handleRequest root p).status = 200 ∧
    (handleRequest root p).body = content ∧
    ("Content-Length", toString content.length) ∈ (handleRequest root p).headers ∧
    ("Content-Type", guessType (lastName (normSegs (splitPath p)))) ∈
      (handleRequest root p).headers := by
  unfold handleRequest handleSegs
  rw [h]
  simp [end_headers]

/-- Witness for C4 at the spec's concrete scenario: requesting
`/bcrdf-v1.bin` from a root holding that file. -/
theorem c4_file_get_ok_witness :
    lookupNode fs0 (normSegs (splitPath ("/bcrdf-v1.bin"))) =
        some (Node.file [1, 2, 3]) ∧
      ((handleRequest fs0 ("/bcrdf-v1.bin")).status = 200 ∧
       (handleRequest fs0 ("/bcrdf-v1.bin")).body = [1, 2, 3] ∧
       ("Content-Length", toString ([1, 2, 3] : Bytes).length) ∈
         (handleRequest fs0 ("/bcrdf-v1.bin")).headers ∧
       ("Content-Type",
          guessType (lastName (normSegs (splitPath ("/bcrdf-v1.bin"))))) ∈
         (handleRequest fs0 ("/bcrdf-v1.bin")).headers) :=
  ⟨rfl, c4_file_get_ok fs0 ("/bcrdf-v1.bin") [1, 2, 3] rfl⟩

/-- Claim C5: when a request path resolves to nothing under the root,
the response has status 404 with the generic not-found body (and still
carries the CORS header). -/
theorem c5_missing_get_404 (root : Node) (p : String)
    (h : lookupNode root (normSegs (splitPath p)) = none) :
    (handleRequest root p).status = 404 ∧
    (handleRequest root p).body = notFoundBody ∧
    corsHeader ∈ (handleRequest root p).headers := by
  unfold handleRequest handleSegs
  rw [h]
  simp [end_headers]

/-- Witness for C5 at the spec's concrete scenario: requesting
`/missing.bin`, which no file provides. -/
theorem c5_missing_get_404_witness :
    lookupNode fs0 (normSegs (splitPath ("/missing.bin"))) = none ∧
      ((handleRequest fs0 ("/missing.bin")).status = 404 ∧
       (handleRequest fs0 ("/missing.bin")).body = notFoundBody ∧
       corsHeader ∈ (handleRequest fs0 ("/missing.bin")).headers) :=
  ⟨rfl, c5_missing_get_404 fs0 ("/missing.bin") rfl⟩

/-- Claim C6: when a request path resolves to a directory, the response
has status 200 and its body is the rendered HTML listing, which holds
one link line for each entry of the directory. -/
theorem c6_dir_get_listing (root : Node) (p : String)
    (es : List (String × Node))
    (h : lookupNode root (normSegs (splitPath p)) = some (Node.dir es)) :
    (handleRequest root p).status = 200 ∧
    (handleRequest root p).body = renderLines (listingLines (entryNames es)) ∧
    (∀ n ∈ entryNames es, linkFor n ∈ listingLines (entryNames es)) ∧
    corsHeader ∈ (handleRequest root p).headers := by
  unfold handleRequest handleSegs
  rw [h]
  refine ⟨rfl, rfl, ?_, by simp [end_headers]⟩
  intro n hn
  unfold listingLines
  exact List.mem_append.mpr
    (Or.inl (List.mem_append.mpr (Or.inr (List.mem_map_of_mem _ hn))))

/-- Witness for C6: requesting the subdirectory `/sub` of the sample
root. -/
theorem c6_dir_get_listing_witness :
    lookupNode fs0 (normSegs (splitPath ("/sub"))) =
        some (Node.dir [("a.txt", Node.file [9])]) ∧
      ((handleRequest fs0 ("/sub")).status = 200 ∧
       (handleRequest fs0 ("/sub")).body =
         renderLines (listingLines (entryNames [("a.txt", Node.file [9])])) ∧
       (∀ n ∈ entryNames [("a.txt", Node.file [9])],
          linkFor n ∈ listingLines (entryNames [("a.txt", Node.file [9])])) ∧
       corsHeader ∈ (handleRequest fs0 ("/sub")).headers) :=
  ⟨rfl, c6_dir_get_listing fs0 ("/sub") [("a.txt", Node.file [9])] rfl⟩

/-- Helper: a decorated line appears in the startup listing exactly for
the entries whose names start with `bcrdf-`. -/
theorem mem_startupLines_iff (names : List String) (f : String) :
    ("   - " ++ f) ∈ startupLines names ↔
      f ∈ names ∧ strStartsWith f ("bcrdf-") = true := by
  unfold startupLines
  constructor
  · intro h
    rcases List.mem_map.mp h with ⟨g, hg, hEq⟩
    have hd := congrArg String.data hEq
    rw [String.data_append, String.data_append] at hd
    have hgf : g = f := String.ext (List.append_cancel_left hd)
    subst hgf
    exact List.mem_filter.mp hg
  · intro ⟨h1, h2⟩
    exact List.mem_map_of_mem _ (List.mem_filter.mpr ⟨h1, h2⟩)

/-- Claim C3: when the `dist` subdirectory does not exist, the run dies
of the unhandled `FileNotFoundError` before any listener is bound: the
exit status is non-zero, the listener is never bound, no request is
ever answered, and a human-readable error message is emitted. -/
theorem c3_missing_dist_fatal (env : Env) (h : env.distExists = false) :
    exitStatus (scriptRun env) ≠ 0 ∧
    (scriptRun env).listenerBound = false ∧
    (scriptRun env).responses = [] ∧
    (scriptRun env).stderr =
      ["FileNotFoundError: [Errno 2] No such file or directory: 'dist'"] := by
  unfold scriptRun exitStatus
  simp [h]

/-- Witness for C3: a launch directory with no `dist`. -/
theorem c3_missing_dist_fatal_witness :
    (Env.mk false [] false ["/bcrdf-v1.bin"]).distExists = false ∧
      (exitStatus (scriptRun (Env.mk false [] false ["/bcrdf-v1.bin"])) ≠ 0 ∧
       (scriptRun (Env.mk false [] false ["/bcrdf-v1.bin"])).listenerBound = false ∧
       (scriptRun (Env.mk false [] false ["/bcrdf-v1.bin"])).responses = [] ∧
       (scriptRun (Env.mk false [] false ["/bcrdf-v1.bin"])).stderr =
         ["FileNotFoundError: [Errno 2] No such file or directory: 'dist'"]) :=
  ⟨rfl, c3_missing_dist_fatal (Env.mk false [] false ["/bcrdf-v1.bin"]) rfl⟩

/-- Counterexample to claim C2 as stated: at a concrete run (serving
root present, port free, interrupt received in the serve loop) the
listener is shut down by the `with` statement, but the process exit
status is 1, not 0 — the `KeyboardInterrupt` is unhandled, so CPython
prints a traceback and exits non-zero. -/
theorem c2_interrupt_counterexample :
    (scriptRun (Env.mk true [] false [])).listenerClosed = true ∧
    exitStatus (scriptRun (Env.mk true [] false [])) = 1 ∧
    exitStatus (scriptRun (Env.mk true [] false [])) ≠ 0 :=
  ⟨rfl, rfl, by decide⟩

/-- Claim C2 as amended: on an interrupt in the request-serving loop
the listener is shut down (the `with` statement closes it on unwind),
but the `KeyboardInterrupt` escapes unhandled, so the process exits
with a non-zero status. -/
theorem c2_interrupt_shutdown (env : Env) (h : env.distExists = true)
    (hp : env.portInUse = false) :
    (scriptRun env).listenerClosed = true ∧
    (scriptRun env).outcome = Except.error PyExc.keyboardInterrupt ∧
    exitStatus (scriptRun env) ≠ 0 := by
  unfold scriptRun exitStatus
  simp [h, hp]

/-- Witness for C2 (amended): a run that serves one request and is then
interrupted. -/
theorem c2_interrupt_shutdown_witness :
    (Env.mk true [("bcrdf-v1.bin", Node.file [1, 2, 3])] false
        ["/bcrdf-v1.bin"]).distExists = true ∧
      (Env.mk true [("bcrdf-v1.bin", Node.file [1, 2, 3])] false
        ["/bcrdf-v1.bin"]).portInUse = false ∧
      ((scriptRun (Env.mk true [("bcrdf-v1.bin", Node.file [1, 2, 3])] false
          ["/bcrdf-v1.bin"])).listenerClosed = true ∧
       (scriptRun (Env.mk true [("bcrdf-v1.bin", Node.file [1, 2, 3])] false
          ["/bcrdf-v1.bin"])).outcome =
         Except.error PyExc.keyboardInterrupt ∧
       exitStatus (scriptRun (Env.mk true
          [("bcrdf-v1.bin", Node.file [1, 2, 3])] false
          ["/bcrdf-v1.bin"])) ≠ 0) :=
  ⟨rfl, rfl,
   c2_interrupt_shutdown
     (Env.mk true [("bcrdf-v1.bin", Node.file [1, 2, 3])] false
       ["/bcrdf-v1.bin"]) rfl rfl⟩

/-- Claim C7: after entering the serving root the script prints the
banner, then one line per entry of the directory whose name starts with
the literal `bcrdf-` — exactly those, by the membership
characterization — then the ready line; an empty directory yields an
empty listing without failing the run, and the responses served do not
depend on the listing at all. -/
theorem c7_startup_listing (env : Env) (h : env.distExists = true)
    (hp : env.portInUse = false) :
    (scriptRun env).printed =
      ["🚀 Test server starting on http://localhost:" ++ toString PORT,
       "📁 Serving files from: dist",
       "📋 Available files:"]
      ++ startupLines (entryNames env.rootEntries)
      ++ ["✅ Server ready! Press Ctrl+C to stop"] ∧
    (∀ f, ("   - " ++ f) ∈ startupLines (entryNames env.rootEntries) ↔
      f ∈ entryNames env.rootEntries ∧ strStartsWith f ("bcrdf-") = true) ∧
    startupLines [] = [] ∧
    exitStatus (scriptRun { env with rootEntries := [] }) =
      exitStatus (scriptRun env) ∧
    (scriptRun env).responses =
      env.requests.map (handleRequest (Node.dir env.rootEntries)) := by
  refine ⟨?_, fun f => mem_startupLines_iff (entryNames env.rootEntries) f,
    rfl, ?_, ?_⟩
  · unfold scriptRun
    simp [h, hp]
  · unfold scriptRun exitStatus
    simp [h, hp]
  · unfold scriptRun
    simp [h, hp]

/-- Witness for C7 at the spec's concrete scenario: the root holds
`bcrdf-v1.bin` and `notes.txt`, and the listing block is exactly the
one decorated `bcrdf-` line. -/
theorem c7_startup_listing_witness :
    (Env.mk true
        [("bcrdf-v1.bin", Node.file [1, 2, 3]),
         ("notes.txt", Node.file [110, 111])] false []).distExists = true ∧
      (Env.mk true
        [("bcrdf-v1.bin", Node.file [1, 2, 3]),
         ("notes.txt", Node.file [110, 111])] false []).portInUse = false ∧
      startupLines (entryNames
        [("bcrdf-v1.bin", Node.file [1, 2, 3]),
         ("notes.txt", Node.file [110, 111])]) = ["   - bcrdf-v1.bin"] ∧
      ((scriptRun (Env.mk true
          [("bcrdf-v1.bin", Node.file [1, 2, 3]),
           ("notes.txt", Node.file [110, 111])] false [])).printed =
        ["🚀 Test server starting on http://localhost:" ++ toString PORT,
         "📁 Serving files from: dist",
         "📋 Available files:"]
        ++ startupLines (entryNames
             [("bcrdf-v1.bin", Node.file [1, 2, 3]),
              ("notes.txt", Node.file [110, 111])])
        ++ ["✅ Server ready! Press Ctrl+C to stop"] ∧
       (∀ f, ("   - " ++ f) ∈ startupLines (entryNames
            [("bcrdf-v1.bin", Node.file [1, 2, 3]),
             ("notes.txt", Node.file [110, 111])]) ↔
          f ∈ entryNames
            [("bcrdf-v1.bin", Node.file [1, 2, 3]),
             ("notes.txt", Node.file [110, 111])] ∧
          strStartsWith f ("bcrdf-") = true) ∧
       startupLines [] = [] ∧
       exitStatus (scriptRun { Env.mk true
           [("bcrdf-v1.bin", Node.file [1, 2, 3]),
            ("notes.txt", Node.file [110, 111])] false [] with
           rootEntries := [] }) =
         exitStatus (scriptRun (Env.mk true
           [("bcrdf-v1.bin", Node.file [1, 2, 3]),
            ("notes.txt", Node.file [110, 111])] false [])) ∧
       (scriptRun (Env.mk true
           [("bcrdf-v1.bin", Node.file [1, 2, 3]),
            ("notes.txt", Node.file [110, 111])] false [])).responses =
         List.map (handleRequest (Node.dir
           [("bcrdf-v1.bin", Node.file [1, 2, 3]),
            ("notes.txt", Node.file [110, 111])])) []) :=
  ⟨rfl, rfl, rfl,
   c7_startup_listing (Env.mk true
     [("bcrdf-v1.bin", Node.file [1, 2, 3]),
      ("notes.txt", Node.file [110, 111])] false []) rfl rfl⟩

/-- Claim C8: the listener is configured for all interfaces (the empty
bind host) at the fixed port 8080; when two instances are started on
the same port, the first binds and serves its requests unaffected while
the second fails to bind and exits with a non-zero status. -/
theorem c8_bind_port_exclusive (env1 env2 : Env)
    (h1 : env1.distExists = true) (h2 : env2.distExists = true) :
    PORT = 8080 ∧ bindHost = "" ∧
    (runTwo env1 env2).1.listenerBound = true ∧
    (runTwo env1 env2).1.responses =
      env1.requests.map (handleRequest (Node.dir env1.rootEntries)) ∧
    (runTwo env1 env2).2.listenerBound = false ∧
    exitStatus (runTwo env1 env2).2 ≠ 0 := by
  unfold runTwo scriptRun exitStatus
  simp [h1, h2, PORT, bindHost]

/-- Witness for C8: two concrete instances over the same sample root. -/
theorem c8_bind_port_exclusive_witness :
    (Env.mk true [("bcrdf-v1.bin", Node.file [1, 2, 3])] false
        ["/bcrdf-v1.bin"]).distExists = true ∧
      (Env.mk true [] false []).distExists = true ∧
      (PORT = 8080 ∧ bindHost = "" ∧
       (runTwo
         (Env.mk true [("bcrdf-v1.bin", Node.file [1, 2, 3])] false
           ["/bcrdf-v1.bin"])
         (Env.mk true [] false [])).1.listenerBound = true ∧
       (runTwo
         (Env.mk true [("bcrdf-v1.bin", Node.file [1, 2, 3])] false
           ["/bcrdf-v1.bin"])
         (Env.mk true [] false [])).1.responses =
         (Env.mk true [("bcrdf-v1.bin", Node.file [1, 2, 3])] false
           ["/bcrdf-v1.bin"]).requests.map
           (handleRequest (Node.dir
             (Env.mk true [("bcrdf-v1.bin", Node.file [1, 2, 3])] false
               ["/bcrdf-v1.bin"]).rootEntries)) ∧
       (runTwo
         (Env.mk true [("bcrdf-v1.bin", Node.file [1, 2, 3])] false
           ["/bcrdf-v1.bin"])
         (Env.mk true [] false [])).2.listenerBound = false ∧
       exitStatus (runTwo
         (Env.mk true [("bcrdf-v1.bin", Node.file [1, 2, 3])] false
           ["/bcrdf-v1.bin"])
         (Env.mk true [] false [])).2 ≠ 0) :=
  ⟨rfl, rfl,
   c8_bind_port_exclusive
     (Env.mk true [("bcrdf-v1.bin", Node.file [1, 2, 3])] false
       ["/bcrdf-v1.bin"])
     (Env.mk true [] false []) rfl rfl⟩

end TestServer
